import Mathlib

/-!
Verification development for the Phone2PC cursor controller
(`pc_receiver/cursor_controller.py`).

The controller receives UDP packets, classifies each payload by its
colon-delimited tag (`MOTION:` / `CONNECT:` / `DISCONNECT:` / `HEARTBEAT:`),
maintains a set of connected client IPs, smooths motion deltas with a
first-order exponential filter, clamps cursor targets to the screen, and
periodically reports throughput/latency metrics.

Modelling conventions:
- Python `float` values are modelled as exact rationals (ℚ).
- Payloads are modelled after UTF-8 decoding, as Lean strings; the Python
  string operations used by the code (`strip`, `startswith`, `split`,
  `float(...)`, `int(...)`) are re-implemented over character lists so that
  all definitions reduce in the kernel.
- Log calls are modelled as emitted events; `pyautogui.moveTo(x, y, 0)` is
  the event `LogEvent.moveTo x y 0`.
- Actuation failure (an exception raised inside `_move_cursor`, caught
  there) is modelled by a Boolean `ok` flag threaded to the move step.
-/

/-- Wall-clock time, in seconds, as passed around by `time.time()`. -/
abbrev Time := ℚ

/-- Python whitespace characters removed by `str.strip()` (ASCII range). -/
def pyIsSpace (c : Char) : Bool :=
  c == ' ' || c == '\t' || c == '\n' || c == '\r' || c == '\x0b' || c == '\x0c'

/-- Models Python `str.strip()`: drop leading and trailing whitespace. -/
def pyStrip (s : List Char) : List Char :=
  ((s.dropWhile pyIsSpace).reverse.dropWhile pyIsSpace).reverse

/-- Models Python `str.startswith(p)` on character lists. -/
def isPre : List Char → List Char → Bool
  | [], _ => true
  | _ :: _, [] => false
  | p :: ps, c :: cs => p == c && isPre ps cs

/-- Models Python `str.split(',')` on character lists: split at every comma,
    keeping empty pieces (so `"".split(',') = [""]`). -/
def splitComma : List Char → List (List Char)
  | [] => [[]]
  | c :: cs =>
    if c = ',' then [] :: splitComma cs
    else
      match splitComma cs with
      | [] => [[c]]
      | h :: t => (c :: h) :: t

/-- Numeric value of a list of decimal digit characters. -/
def digitsVal (l : List Char) : ℕ :=
  l.foldl (fun n c => 10 * n + (c.toNat - 48)) 0

/-- Unsigned decimal literal: digits with an optional fractional part
    (`"10"`, `"1."`, `".5"`, `"2.75"`); anything else is rejected. -/
def decimalCore (cs : List Char) : Option ℚ :=
  let ip := cs.takeWhile Char.isDigit
  match cs.dropWhile Char.isDigit with
  | [] => if ip = [] then none else some (digitsVal ip : ℚ)
  | '.' :: rest =>
    let fp := rest.takeWhile Char.isDigit
    if rest.dropWhile Char.isDigit = [] && !(ip = [] && fp = []) then
      some ((digitsVal ip : ℚ) + (digitsVal fp : ℚ) / 10 ^ fp.length)
    else none
  | _ => none

/-- Models Python `float(s)` restricted to finite decimal literals with an
    optional sign and optional fractional part (the forms the wire protocol
    carries); exponent forms, `inf` and `nan` are outside the model.
    Like Python, surrounding whitespace is stripped first. -/
def pyFloat (s : List Char) : Option ℚ :=
  match pyStrip s with
  | '-' :: cs => (decimalCore cs).map (fun q => -q)
  | '+' :: cs => decimalCore cs
  | cs => decimalCore cs

/-- Models Python `int(q)` on a real value: truncation toward zero. -/
def pyInt (q : ℚ) : ℤ :=
  if q < 0 then ⌈q⌉ else ⌊q⌋

/-- Events emitted by packet processing; each corresponds to a logger call
    or to the `pyautogui.moveTo` actuation in the source. -/
inductive LogEvent where
  /-- `pyautogui.moveTo(new_x, new_y, duration=0)` — absolute move. -/
  | moveTo (x y : ℤ) (dur : ℚ)
  /-- `logger.error("Error moving cursor: ...")` — caught actuation failure. -/
  | moveError
  /-- `logger.error("Invalid motion data format ...")` — decode failure. -/
  | invalidMotion
  /-- `logger.info("Client connected: ...")`. -/
  | clientConnected
  /-- `logger.info("Client disconnected: ...")`. -/
  | clientDisconnected
  /-- `logger.warning("Unknown message format ...")`. -/
  | unknownWarning
  deriving DecidableEq

/-- Output of one status-monitor tick. -/
inductive StatusLine where
  /-- `logger.info("Status: N client(s) connected, FPS: ..., Latency: ...")`. -/
  | status (clients : ℕ) (fps : ℚ) (latencyMs : ℚ)
  /-- `logger.info("Status: No clients connected")`. -/
  | noClients
  deriving DecidableEq

/-- The mutable state of `CursorController` (the fields the core logic
    reads and writes; socket and thread handles are outside the model). -/
structure CtrlState where
  connected_clients : Finset String
  sensitivity : ℚ
  smoothing_factor : ℚ
  smoothed_dx : ℚ
  smoothed_dy : ℚ
  last_motion_time : Time
  motion_count : ℕ
  avg_latency : ℚ
  deriving DecidableEq

/-- `CursorController.__init__` field values (`t0` is the construction-time
    `time.time()` stored in `last_motion_time`). -/
def initState (t0 : Time) : CtrlState :=
  { connected_clients := ∅
    sensitivity := 1.0
    smoothing_factor := 0.7
    smoothed_dx := 0.0
    smoothed_dy := 0.0
    last_motion_time := t0
    motion_count := 0
    avg_latency := 0.0 }

/-- Session Registry insert: `self.connected_clients.add(client_ip)`. -/
def register (ip : String) (s : Finset String) : Finset String :=
  insert ip s

/-- Session Registry removal: `self.connected_clients.discard(client_ip)`. -/
def unregister (ip : String) (s : Finset String) : Finset String :=
  s.erase ip

/-- The Motion Filter step of `_handle_motion_data`: scale the raw delta by
    `sensitivity`, then blend it into the smoothed state:
    `smoothed = smoothing_factor * smoothed + (1 - smoothing_factor) * delta`. -/
def filterApply (f s : ℚ) (st : ℚ × ℚ) (dx dy : ℚ) : ℚ × ℚ :=
  (f * st.1 + (1 - f) * (dx * s), f * st.2 + (1 - f) * (dy * s))

/-- Iterate the Motion Filter step `n` times on the same raw input. -/
def iterApply (f s dx dy : ℚ) : ℕ → ℚ × ℚ → ℚ × ℚ
  | 0, p => p
  | n + 1, p => iterApply f s dx dy n (filterApply f s p dx dy)

/-- The target coordinate computed by `_move_cursor`:
    `new_x = int(current_x + dx)` truncated, then clamped by
    `max(0, min(new_x, screen_width - 1))`, likewise for `y`. -/
def moveCursorTarget (dx dy : ℚ) (cx cy W H : ℤ) : ℤ × ℤ :=
  let nx := pyInt ((cx : ℚ) + dx)
  let ny := pyInt ((cy : ℚ) + dy)
  (max 0 (min nx (W - 1)), max 0 (min ny (H - 1)))

/-- `_move_cursor`: on success, issue the zero-duration absolute move to the
    clamped target; on an underlying actuation failure (`ok = false`) the
    exception is caught inside `_move_cursor` and only an error is logged. -/
def moveCursor (dx dy : ℚ) (cx cy W H : ℤ) (ok : Bool) : List LogEvent :=
  if ok then
    let t := moveCursorTarget dx dy cx cy W H
    [LogEvent.moveTo t.1 t.2 0]
  else
    [LogEvent.moveError]

/-- Field extraction of `_handle_motion_data`: for a message that starts
    with `MOTION:`, `message.split(':', 1)[1]` is the text after the
    7-character tag; it must split at commas into exactly two pieces, each
    a Python float literal, or the parse raises `ValueError`. -/
def motionFieldsOf (m : List Char) : Option (ℚ × ℚ) :=
  match splitComma (m.drop 7) with
  | [a, b] =>
    match pyFloat a, pyFloat b with
    | some dx, some dy => some (dx, dy)
    | _, _ => none
  | _ => none

/-- `_handle_motion_data`: parse the two fields; on success scale and
    smooth the delta, move the cursor (failure caught inside the move),
    then update the metrics — `motion_count` is incremented, and the
    latency EMA `avg_latency = avg_latency * 0.9 + latency * 0.1` is
    applied only when the incremented count exceeds 1, where `latency` is
    the gap `now - last_motion_time`; `last_motion_time` is always set to
    `now`. On a parse failure the `ValueError`/`IndexError` handler logs
    the invalid format and no field changes. -/
def handleMotionData (m : List Char) (now : Time) (cx cy W H : ℤ) (ok : Bool)
    (st : CtrlState) : CtrlState × List LogEvent :=
  match motionFieldsOf m with
  | some (dx0, dy0) =>
    let sm := filterApply st.smoothing_factor st.sensitivity
      (st.smoothed_dx, st.smoothed_dy) dx0 dy0
    let evs := moveCursor sm.1 sm.2 cx cy W H ok
    let mc := st.motion_count + 1
    let al := if 1 < mc then st.avg_latency * 0.9 + (now - st.last_motion_time) * 0.1
              else st.avg_latency
    ({ st with
        smoothed_dx := sm.1
        smoothed_dy := sm.2
        motion_count := mc
        avg_latency := al
        last_motion_time := now }, evs)
  | none => (st, [LogEvent.invalidMotion])

/-- `_process_packet`: decode (modelled post-UTF-8) and strip the payload,
    add the sender IP to `connected_clients` (done for every decodable
    packet, before dispatch), then dispatch on the message tag. -/
def processPacket (message : String) (clientIp : String) (now : Time)
    (cx cy W H : ℤ) (ok : Bool) (st : CtrlState) : CtrlState × List LogEvent :=
  let m := pyStrip message.toList
  let st1 := { st with connected_clients := register clientIp st.connected_clients }
  if isPre "MOTION:".toList m then
    handleMotionData m now cx cy W H ok st1
  else if isPre "CONNECT:".toList m then
    (st1, [LogEvent.clientConnected])
  else if isPre "DISCONNECT:".toList m then
    ({ st1 with connected_clients := unregister clientIp st1.connected_clients },
     [LogEvent.clientDisconnected])
  else if isPre "HEARTBEAT:".toList m then
    (st1, [])
  else
    (st1, [LogEvent.unknownWarning])

/-- One `_status_monitor` tick: with clients connected, report
    `fps = motion_count / 5.0` (the code special-cases `motion_count = 0`
    to `0`) and `latency_ms = avg_latency * 1000`, then reset
    `motion_count`; with no clients, report "no clients" and change
    nothing. -/
def statusTick (st : CtrlState) : CtrlState × StatusLine :=
  if st.connected_clients.Nonempty then
    let fps : ℚ := if 0 < st.motion_count then (st.motion_count : ℚ) / 5 else 0
    ({ st with motion_count := 0 },
     StatusLine.status st.connected_clients.card fps (st.avg_latency * 1000))
  else
    (st, StatusLine.noClients)

/-- `set_sensitivity`: store `max(0.1, min(5.0, v))`. -/
def set_sensitivity (v : ℚ) (st : CtrlState) : CtrlState :=
  { st with sensitivity := max 0.1 (min 5.0 v) }

/-- `set_smoothing`: store `max(0.0, min(1.0, v))`. -/
def set_smoothing (v : ℚ) (st : CtrlState) : CtrlState :=
  { st with smoothing_factor := max 0.0 (min 1.0 v) }

/-- The configuration invariant stated by the spec. -/
def paramsInv (st : CtrlState) : Prop :=
  0.1 ≤ st.sensitivity ∧ st.sensitivity ≤ 5 ∧
  0 ≤ st.smoothing_factor ∧ st.smoothing_factor ≤ 1

/-- A run of reporting intervals, each carrying at most one packet: every
    list entry is one packet processed followed by one status tick. -/
def intervalRun (ip : String) (cx cy W H : ℤ) (ok : Bool) :
    List (String × Time) → CtrlState → CtrlState
  | [], st => st
  | (m, t) :: rest, st =>
    intervalRun ip cx cy W H ok rest
      (statusTick (processPacket m ip t cx cy W H ok st).1).1

/-- Follows the spec's words for `Screen Actuator.move_by` (§4.4):
    `nx = clamp(round(cx+fdx), 0, W-1)`, `ny = clamp(round(cy+fdy), 0, H-1)`
    — rounding to the nearest integer, to be compared with the code's
    truncating `moveCursorTarget`. -/
def moveBySpecTarget (dx dy : ℚ) (cx cy W H : ℤ) : ℤ × ℤ :=
  (max 0 (min (round ((cx : ℚ) + dx)) (W - 1)),
   max 0 (min (round ((cy : ℚ) + dy)) (H - 1)))

/-! ### Shared evaluation and preservation lemmas -/

/-- Concrete parse fact: `MOTION:10,0` decodes to the pair `(10, 0)`. -/
theorem motionFields_ten_zero : motionFieldsOf "MOTION:10,0".toList = some (10, 0) := by
  have h0 : motionFieldsOf "MOTION:10,0".toList =
      some (((digitsVal ['1', '0'] : ℕ) : ℚ), ((digitsVal ['0'] : ℕ) : ℚ)) := rfl
  rw [h0, show digitsVal ['1', '0'] = 10 from by decide,
    show digitsVal ['0'] = 0 from by decide]
  norm_num

/-- Packet processing never touches the configuration parameters. -/
theorem processPacket_params (m ip : String) (now : Time) (cx cy W H : ℤ)
    (ok : Bool) (st : CtrlState) :
    (processPacket m ip now cx cy W H ok st).1.sensitivity = st.sensitivity ∧
    (processPacket m ip now cx cy W H ok st).1.smoothing_factor = st.smoothing_factor := by
  unfold processPacket handleMotionData
  dsimp only
  constructor
  all_goals repeat' split
  all_goals simp_all

/-- A status tick never touches the configuration parameters. -/
theorem statusTick_params (st : CtrlState) :
    (statusTick st).1.sensitivity = st.sensitivity ∧
    (statusTick st).1.smoothing_factor = st.smoothing_factor := by
  unfold statusTick
  split <;> simp

/-- Closed form of iterating the filter on the zero input. -/
theorem iterApply_zero_formula (f s : ℚ) (n : ℕ) : ∀ sdx sdy : ℚ,
    iterApply f s 0 0 n (sdx, sdy) = (f ^ n * sdx, f ^ n * sdy) := by
  induction n with
  | zero => intro sdx sdy; simp [iterApply]
  | succ n ih =>
    intro sdx sdy
    have h1 : filterApply f s (sdx, sdy) 0 0 = (f * sdx, f * sdy) := by
      simp only [filterApply, Prod.mk.injEq]
      constructor <;> ring
    show iterApply f s 0 0 n (filterApply f s (sdx, sdy) 0 0) = _
    rw [h1, ih]
    simp only [Prod.mk.injEq]
    constructor <;> ring

/-- C4: with `smoothing_factor = 0` the filter passes through the
    sensitivity-scaled delta; with `smoothing_factor = 1` the state never
    changes; `apply(0,0)` multiplies the state by the smoothing factor, so
    `n` repetitions scale it by `smoothing_factor ^ n` (geometric decay
    toward `(0,0)` when the factor is in `(0,1)`, strictly shrinking a
    nonzero component); a nonzero state is left unchanged by `apply(0,0)`
    exactly when `smoothing_factor = 1`. -/
theorem c4_smoothing_algebra (f s dx dy sdx sdy : ℚ) :
    filterApply 0 s (sdx, sdy) dx dy = (dx * s, dy * s) ∧
    filterApply 1 s (sdx, sdy) dx dy = (sdx, sdy) ∧
    filterApply f s (sdx, sdy) 0 0 = (f * sdx, f * sdy) ∧
    (∀ n : ℕ, iterApply f s 0 0 n (sdx, sdy) = (f ^ n * sdx, f ^ n * sdy)) ∧
    (0 < f → f < 1 → sdx ≠ 0 → |f * sdx| < |sdx|) ∧
    ((sdx, sdy) ≠ (0, 0) → (filterApply f s (sdx, sdy) 0 0 = (sdx, sdy) ↔ f = 1)) := by
  have hzero : filterApply f s (sdx, sdy) 0 0 = (f * sdx, f * sdy) := by
    simp only [filterApply, Prod.mk.injEq]
    constructor <;> ring
  refine ⟨?_, ?_, hzero, fun n => iterApply_zero_formula f s n sdx sdy, ?_, ?_⟩
  · simp only [filterApply, Prod.mk.injEq]
    constructor <;> ring
  · simp only [filterApply, Prod.mk.injEq]
    constructor <;> ring
  · intro hf0 hf1 hx
    rw [abs_mul, abs_of_pos hf0]
    exact mul_lt_of_lt_one_left (abs_pos.2 hx) hf1
  · intro hne
    rw [hzero]
    constructor
    · intro hfix
      rw [Prod.mk.injEq] at hfix
      by_cases hx : sdx = 0
      · have hy : sdy ≠ 0 := fun hy => hne (by rw [hx, hy])
        exact mul_right_cancel₀ hy (by rw [hfix.2, one_mul])
      · exact mul_right_cancel₀ hx (by rw [hfix.1, one_mul])
    · intro hf
      rw [hf, one_mul, one_mul]

/-- Witness for C4 at `f = 1/2`, `s = 1`, state `(1, 0)`. -/
theorem c4_witness :
    iterApply (1/2) 1 0 0 3 ((1 : ℚ), (0 : ℚ)) = ((1/2) ^ 3 * 1, (1/2) ^ 3 * 0) ∧
    |(1/2 : ℚ) * 1| < |(1 : ℚ)| ∧
    (filterApply (1/2) 1 ((1 : ℚ), (0 : ℚ)) 0 0 = ((1 : ℚ), (0 : ℚ)) ↔ (1/2 : ℚ) = 1) := by
  have h := c4_smoothing_algebra (1/2) 1 0 0 1 0
  exact ⟨h.2.2.2.1 3,
    h.2.2.2.2.1 (by norm_num) (by norm_num) (by norm_num),
    h.2.2.2.2.2 (by simp)⟩

/-- C5: the setters store the clamped value, the starting configuration
    satisfies the parameter invariant, and every operation preserves it. -/
theorem c5_clamped_setters (v t : ℚ) (m ip : String) (now : Time) (cx cy W H : ℤ)
    (ok : Bool) (st : CtrlState) :
    (set_sensitivity v st).sensitivity = max 0.1 (min 5.0 v) ∧
    (set_smoothing v st).smoothing_factor = max 0.0 (min 1.0 v) ∧
    paramsInv (initState t) ∧
    (paramsInv st → paramsInv (set_sensitivity v st)) ∧
    (paramsInv st → paramsInv (set_smoothing v st)) ∧
    (paramsInv st → paramsInv (processPacket m ip now cx cy W H ok st).1) ∧
    (paramsInv st → paramsInv (statusTick st).1) := by
  refine ⟨rfl, rfl, ?_, ?_, ?_, ?_, ?_⟩
  · unfold paramsInv initState
    norm_num
  · intro h
    exact ⟨le_max_of_le_left (by norm_num),
      max_le (by norm_num) (le_trans (min_le_left _ _) (by norm_num)),
      h.2.2.1, h.2.2.2⟩
  · intro h
    exact ⟨h.1, h.2.1, le_max_of_le_left (by norm_num),
      max_le (by norm_num) (le_trans (min_le_left _ _) (by norm_num))⟩
  · intro h
    have hp := processPacket_params m ip now cx cy W H ok st
    unfold paramsInv at h ⊢
    rw [hp.1, hp.2]
    exact h
  · intro h
    have hp := statusTick_params st
    unfold paramsInv at h ⊢
    rw [hp.1, hp.2]
    exact h

/-- Witness for C5: an out-of-range sensitivity is clamped and the
    invariant holds after construction and after operations. -/
theorem c5_witness :
    (set_sensitivity 9 (initState 0)).sensitivity = max 0.1 (min 5.0 9) ∧
    paramsInv (set_sensitivity 9 (initState 0)) ∧
    paramsInv (statusTick (initState 0)).1 ∧
    (set_sensitivity 9 (initState 0)).sensitivity = 5 := by
  have h := c5_clamped_setters 9 0 "CONNECT:hello" "1.2.3.4" 0 0 0 1 1 true (initState 0)
  have hinv : paramsInv (initState 0) := h.2.2.1
  refine ⟨h.1, h.2.2.2.1 hinv, h.2.2.2.2.2.2 hinv, ?_⟩
  rw [h.1]
  norm_num

/-- C6: for any delta and any screen at least 1×1, the requested target
    stays inside `[0, W-1] × [0, H-1]`. -/
theorem c6_target_in_bounds (dx dy : ℚ) (cx cy W H : ℤ) (hW : 1 ≤ W) (hH : 1 ≤ H) :
    0 ≤ (moveCursorTarget dx dy cx cy W H).1 ∧
    (moveCursorTarget dx dy cx cy W H).1 ≤ W - 1 ∧
    0 ≤ (moveCursorTarget dx dy cx cy W H).2 ∧
    (moveCursorTarget dx dy cx cy W H).2 ≤ H - 1 := by
  unfold moveCursorTarget
  exact ⟨le_max_left _ _, max_le (by omega) (min_le_right _ _),
    le_max_left _ _, max_le (by omega) (min_le_right _ _)⟩

/-- Witness for C6: Scenario 5 — from `(0,0)` on an 800×600 screen a
    `(-50,-50)` delta is clamped to target `(0,0)`, inside bounds. -/
theorem c6_witness :
    (0 ≤ (moveCursorTarget (-50) (-50) 0 0 800 600).1 ∧
     (moveCursorTarget (-50) (-50) 0 0 800 600).1 ≤ 800 - 1 ∧
     0 ≤ (moveCursorTarget (-50) (-50) 0 0 800 600).2 ∧
     (moveCursorTarget (-50) (-50) 0 0 800 600).2 ≤ 600 - 1) ∧
    moveCursorTarget (-50) (-50) 0 0 800 600 = (0, 0) := by
  refine ⟨c6_target_in_bounds (-50) (-50) 0 0 800 600 (by norm_num) (by norm_num), ?_⟩
  have hc : ⌈(-50 : ℚ)⌉ = (-50 : ℤ) := by
    rw [Int.ceil_eq_iff]
    norm_num
  unfold moveCursorTarget pyInt
  norm_num [hc]

/-- C2 (corrected): the move issued for a motion sample is the
    zero-duration absolute move to the clamped target, where the
    fractional sum `current + delta` is converted with Python `int(...)`,
    i.e. truncated toward zero (floor for nonnegative values, ceiling for
    negative ones) — not rounded to the nearest integer. -/
theorem c2_truncating_move (m : List Char) (dx0 dy0 : ℚ) (now : Time) (cx cy W H : ℤ)
    (st : CtrlState) (h : motionFieldsOf m = some (dx0, dy0)) :
    (handleMotionData m now cx cy W H true st).2 =
      [LogEvent.moveTo
        (max 0 (min (pyInt ((cx : ℚ) +
          (handleMotionData m now cx cy W H true st).1.smoothed_dx)) (W - 1)))
        (max 0 (min (pyInt ((cy : ℚ) +
          (handleMotionData m now cx cy W H true st).1.smoothed_dy)) (H - 1)))
        0] ∧
    (∀ q : ℚ, 0 ≤ q → ((pyInt q : ℚ) ≤ q ∧ q - 1 < (pyInt q : ℚ))) ∧
    (∀ q : ℚ, q < 0 → (q ≤ (pyInt q : ℚ) ∧ (pyInt q : ℚ) < q + 1)) := by
  refine ⟨?_, ?_, ?_⟩
  · simp only [handleMotionData, h]
    simp [moveCursor, moveCursorTarget]
  · intro q hq
    rw [pyInt, if_neg (not_lt.2 hq)]
    exact ⟨Int.floor_le q, Int.sub_one_lt_floor q⟩
  · intro q hq
    rw [pyInt, if_pos hq]
    exact ⟨Int.le_ceil q, Int.ceil_lt_add_one q⟩

/-- Counterexample to C2 as stated: with filtered delta `0.7` from cursor
    `(100, 100)` on a 1920×1080 screen the code targets `x = int(100.7) =
    100`, while the spec's `clamp(round(100.7), 0, 1919)` is `101`. -/
theorem c2_counterexample :
    moveCursorTarget 0.7 0 100 100 1920 1080 ≠ moveBySpecTarget 0.7 0 100 100 1920 1080 ∧
    moveCursorTarget 0.7 0 100 100 1920 1080 = (100, 100) ∧
    moveBySpecTarget 0.7 0 100 100 1920 1080 = (101, 100) := by
  have hx : pyInt (((100 : ℤ) : ℚ) + 0.7) = 100 := by
    unfold pyInt
    norm_num
  have hy : pyInt (((100 : ℤ) : ℚ) + 0) = 100 := by
    unfold pyInt
    norm_num
  have h1 : moveCursorTarget 0.7 0 100 100 1920 1080 = (100, 100) := by
    unfold moveCursorTarget
    rw [hx, hy]
    decide
  have h2 : moveBySpecTarget 0.7 0 100 100 1920 1080 = (101, 100) := by
    have hrx : round (((100 : ℤ) : ℚ) + 0.7) = 101 := by
      norm_num [round_eq]
    have hry : round (((100 : ℤ) : ℚ) + 0) = 100 := by
      norm_num [round_eq]
    unfold moveBySpecTarget
    rw [hrx, hry]
    decide
  exact ⟨by rw [h1, h2]; decide, h1, h2⟩

/-- Witness for C2 at the Scenario-1 input. -/
theorem c2_witness :
    ((handleMotionData "MOTION:10,0".toList 0 100 100 1920 1080 true (initState 0)).2 =
      [LogEvent.moveTo
        (max 0 (min (pyInt (((100 : ℤ) : ℚ) +
          (handleMotionData "MOTION:10,0".toList 0 100 100 1920 1080 true
            (initState 0)).1.smoothed_dx)) (1920 - 1)))
        (max 0 (min (pyInt (((100 : ℤ) : ℚ) +
          (handleMotionData "MOTION:10,0".toList 0 100 100 1920 1080 true
            (initState 0)).1.smoothed_dy)) (1080 - 1)))
        0]) ∧
    ((pyInt (1/2 : ℚ) : ℚ) ≤ 1/2 ∧ (1/2 : ℚ) - 1 < (pyInt (1/2 : ℚ) : ℚ)) ∧
    ((-1/2 : ℚ) ≤ (pyInt (-1/2 : ℚ) : ℚ) ∧ (pyInt (-1/2 : ℚ) : ℚ) < -1/2 + 1) := by
  have h := c2_truncating_move "MOTION:10,0".toList 10 0 0 100 100 1920 1080
    (initState 0) motionFields_ten_zero
  exact ⟨h.1, h.2.1 (1/2) (by norm_num), h.2.2 (-1/2) (by norm_num)⟩

/-- C3: the filter scales by sensitivity first, then blends with the
    smoothing factor, and the pair handed to the actuator is exactly the
    new `(smoothed_dx, smoothed_dy)`. -/
theorem c3_filter_then_move (m : List Char) (dx0 dy0 : ℚ) (now : Time) (cx cy W H : ℤ)
    (st : CtrlState) (h : motionFieldsOf m = some (dx0, dy0)) :
    (handleMotionData m now cx cy W H true st).1.smoothed_dx =
      st.smoothing_factor * st.smoothed_dx +
        (1 - st.smoothing_factor) * (dx0 * st.sensitivity) ∧
    (handleMotionData m now cx cy W H true st).1.smoothed_dy =
      st.smoothing_factor * st.smoothed_dy +
        (1 - st.smoothing_factor) * (dy0 * st.sensitivity) ∧
    (handleMotionData m now cx cy W H true st).2 =
      [LogEvent.moveTo
        (moveCursorTarget (handleMotionData m now cx cy W H true st).1.smoothed_dx
          (handleMotionData m now cx cy W H true st).1.smoothed_dy cx cy W H).1
        (moveCursorTarget (handleMotionData m now cx cy W H true st).1.smoothed_dx
          (handleMotionData m now cx cy W H true st).1.smoothed_dy cx cy W H).2
        0] := by
  simp only [handleMotionData, h]
  exact ⟨rfl, rfl, by simp [moveCursor, filterApply]⟩

/-- Witness for C3: Scenario 1 — `MOTION:10,0` with sensitivity 1 and
    smoothing 0 from `(100,100)` on 1920×1080 filters to `(10, 0)` and
    moves to `(110, 100)`. -/
theorem c3_witness :
    (handleMotionData "MOTION:10,0".toList 0 100 100 1920 1080 true
      (set_smoothing 0 (initState 0))).1.smoothed_dx = 10 ∧
    (handleMotionData "MOTION:10,0".toList 0 100 100 1920 1080 true
      (set_smoothing 0 (initState 0))).1.smoothed_dy = 0 ∧
    (handleMotionData "MOTION:10,0".toList 0 100 100 1920 1080 true
      (set_smoothing 0 (initState 0))).2 = [LogEvent.moveTo 110 100 0] := by
  have h := c3_filter_then_move "MOTION:10,0".toList 10 0 0 100 100 1920 1080
    (set_smoothing 0 (initState 0)) motionFields_ten_zero
  have hdx : (handleMotionData "MOTION:10,0".toList 0 100 100 1920 1080 true
      (set_smoothing 0 (initState 0))).1.smoothed_dx = 10 := by
    rw [h.1]
    norm_num [set_smoothing, initState]
  have hdy : (handleMotionData "MOTION:10,0".toList 0 100 100 1920 1080 true
      (set_smoothing 0 (initState 0))).1.smoothed_dy = 0 := by
    rw [h.2.1]
    norm_num [set_smoothing, initState]
  refine ⟨hdx, hdy, ?_⟩
  rw [h.2.2, hdx, hdy]
  have hx : pyInt (((100 : ℤ) : ℚ) + 10) = 110 := by
    unfold pyInt
    norm_num
  have hy : pyInt (((100 : ℤ) : ℚ) + 0) = 100 := by
    unfold pyInt
    norm_num
  unfold moveCursorTarget
  rw [hx, hy]
  norm_num

/-- The controller state after a motion packet does not depend on whether
    the actuation succeeds (the exception is caught inside the move). -/
theorem handleMotionData_state_indep (m : List Char) (now : Time) (cx cy W H : ℤ)
    (st : CtrlState) :
    (handleMotionData m now cx cy W H false st).1 =
    (handleMotionData m now cx cy W H true st).1 := by
  cases hm : motionFieldsOf m with
  | none => simp [handleMotionData, hm]
  | some p =>
    obtain ⟨dx0, dy0⟩ := p
    simp [handleMotionData, hm]

/-- C8: an actuation failure is caught and logged (`moveError`), never
    propagates out of packet processing, and leaves exactly the state a
    successful move would leave — in particular the filter state has
    already absorbed the sample. -/
theorem c8_actuation_failure_isolated (msg ip : String) (m : List Char)
    (dx0 dy0 : ℚ) (now : Time) (cx cy W H : ℤ) (st : CtrlState) :
    (handleMotionData m now cx cy W H false st).1 =
      (handleMotionData m now cx cy W H true st).1 ∧
    (processPacket msg ip now cx cy W H false st).1 =
      (processPacket msg ip now cx cy W H true st).1 ∧
    (motionFieldsOf m = some (dx0, dy0) →
      (handleMotionData m now cx cy W H false st).2 = [LogEvent.moveError] ∧
      (handleMotionData m now cx cy W H false st).1.smoothed_dx =
        st.smoothing_factor * st.smoothed_dx +
          (1 - st.smoothing_factor) * (dx0 * st.sensitivity) ∧
      (handleMotionData m now cx cy W H false st).1.smoothed_dy =
        st.smoothing_factor * st.smoothed_dy +
          (1 - st.smoothing_factor) * (dy0 * st.sensitivity)) := by
  refine ⟨handleMotionData_state_indep m now cx cy W H st, ?_, ?_⟩
  · unfold processPacket
    dsimp only
    split
    · exact handleMotionData_state_indep _ now cx cy W H _
    · rfl
  · intro hm
    simp only [handleMotionData, hm]
    exact ⟨by simp [moveCursor], rfl, rfl⟩

/-- Witness for C8 at the Scenario-1 input with a failing actuator. -/
theorem c8_witness :
    (handleMotionData "MOTION:10,0".toList 0 100 100 1920 1080 false (initState 0)).1 =
      (handleMotionData "MOTION:10,0".toList 0 100 100 1920 1080 true (initState 0)).1 ∧
    (handleMotionData "MOTION:10,0".toList 0 100 100 1920 1080 false (initState 0)).2 =
      [LogEvent.moveError] := by
  have h := c8_actuation_failure_isolated "MOTION:10,0" "1.2.3.4" "MOTION:10,0".toList
    10 0 0 100 100 1920 1080 (initState 0)
  exact ⟨h.1, (h.2.2 motionFields_ten_zero).1⟩

/-- C9: with clients connected a tick reports `fps = motion_count / 5` and
    `latency_ms = avg_latency * 1000`, resets `motion_count`, and leaves
    the latency EMA alone; with no clients it reports "no clients" and
    changes nothing. -/
theorem c9_status_tick (st : CtrlState) :
    (st.connected_clients.Nonempty →
      (statusTick st).1.motion_count = 0 ∧
      (statusTick st).1.avg_latency = st.avg_latency ∧
      (statusTick st).2 = StatusLine.status st.connected_clients.card
        ((st.motion_count : ℚ) / 5) (st.avg_latency * 1000)) ∧
    (st.connected_clients = ∅ →
      (statusTick st).1 = st ∧ (statusTick st).2 = StatusLine.noClients) := by
  constructor
  · intro hne
    have hfps : (if 0 < st.motion_count then (st.motion_count : ℚ) / 5 else 0) =
        (st.motion_count : ℚ) / 5 := by
      split
      · rfl
      · rename_i hc
        have h0 : st.motion_count = 0 := by omega
        rw [h0]
        norm_num
    unfold statusTick
    rw [if_pos hne, hfps]
    exact ⟨rfl, rfl, rfl⟩
  · intro he
    unfold statusTick
    rw [if_neg (by rw [he]; exact Finset.not_nonempty_empty)]
    exact ⟨rfl, rfl⟩

/-- Concrete controller state used to exercise the reporting tick. -/
def demoSt : CtrlState :=
  { connected_clients := {"1.2.3.4"}
    sensitivity := 1
    smoothing_factor := 0
    smoothed_dx := 0
    smoothed_dy := 0
    last_motion_time := 0
    motion_count := 10
    avg_latency := 1/500 }

/-- Witness for C9: a tick on a connected state reports and resets; a tick
    on the fresh empty state reports "no clients" and changes nothing. -/
theorem c9_witness :
    ((statusTick demoSt).1.motion_count = 0 ∧
     (statusTick demoSt).1.avg_latency = demoSt.avg_latency ∧
     (statusTick demoSt).2 = StatusLine.status demoSt.connected_clients.card
       ((demoSt.motion_count : ℚ) / 5) (demoSt.avg_latency * 1000)) ∧
    ((statusTick (initState 0)).1 = initState 0 ∧
     (statusTick (initState 0)).2 = StatusLine.noClients) := by
  have h := c9_status_tick demoSt
  have h0 := c9_status_tick (initState 0)
  exact ⟨h.1 (by simp [demoSt]), h0.2 (by simp [initState])⟩

/-- A packet that arrives on zeroed counters keeps the latency EMA at zero
    and leaves the count at 0, or at 1 with the sender registered. -/
theorem processPacket_zero_case (m ip : String) (now : Time) (cx cy W H : ℤ)
    (ok : Bool) (st : CtrlState) (h0 : st.motion_count = 0) (hA : st.avg_latency = 0) :
    (processPacket m ip now cx cy W H ok st).1.avg_latency = 0 ∧
    ((processPacket m ip now cx cy W H ok st).1.motion_count = 0 ∨
      ((processPacket m ip now cx cy W H ok st).1.motion_count = 1 ∧
       (processPacket m ip now cx cy W H ok st).1.connected_clients.Nonempty)) := by
  unfold processPacket handleMotionData
  dsimp only
  constructor
  all_goals repeat' split
  all_goals simp_all [register, unregister, Finset.insert_nonempty]

/-- A tick on a state reachable within one reporting interval from zeroed
    counters re-zeroes the count and keeps the EMA at zero. -/
theorem statusTick_zero_case (st : CtrlState) (hA : st.avg_latency = 0)
    (h : st.motion_count = 0 ∨ (st.motion_count = 1 ∧ st.connected_clients.Nonempty)) :
    (statusTick st).1.avg_latency = 0 ∧ (statusTick st).1.motion_count = 0 := by
  by_cases hne : st.connected_clients.Nonempty
  · unfold statusTick
    rw [if_pos hne]
    exact ⟨hA, rfl⟩
  · unfold statusTick
    rw [if_neg hne]
    rcases h with h | ⟨h1, h2⟩
    · exact ⟨hA, h⟩
    · exact absurd h2 hne

/-- Starting from zeroed counters, any run with at most one packet per
    reporting interval keeps `avg_latency` at zero. -/
theorem intervalRun_zero (ip : String) (cx cy W H : ℤ) (ok : Bool)
    (evs : List (String × Time)) : ∀ st : CtrlState,
    st.motion_count = 0 → st.avg_latency = 0 →
    (intervalRun ip cx cy W H ok evs st).avg_latency = 0 ∧
    (intervalRun ip cx cy W H ok evs st).motion_count = 0 := by
  induction evs with
  | nil => exact fun st h0 hA => ⟨hA, h0⟩
  | cons e rest ih =>
    intro st h0 hA
    obtain ⟨m, t⟩ := e
    have hp := processPacket_zero_case m ip t cx cy W H ok st h0 hA
    have hs := statusTick_zero_case _ hp.1 hp.2
    exact ih _ hs.2 hs.1

/-- C10: the latency EMA is applied exactly when the post-increment
    `motion_count` exceeds 1, with the gap measured from the previous
    sample; the first sample after start or after a reporter reset leaves
    `avg_latency` unchanged, and with at most one packet per reporting
    interval the EMA stays at zero. -/
theorem c10_latency_ema_gate (m : List Char) (dx0 dy0 : ℚ) (now : Time)
    (cx cy W H : ℤ) (ok : Bool) (st : CtrlState)
    (h : motionFieldsOf m = some (dx0, dy0)) :
    (handleMotionData m now cx cy W H ok st).1.motion_count = st.motion_count + 1 ∧
    (handleMotionData m now cx cy W H ok st).1.last_motion_time = now ∧
    (1 < st.motion_count + 1 →
      (handleMotionData m now cx cy W H ok st).1.avg_latency =
        0.9 * st.avg_latency + 0.1 * (now - st.last_motion_time)) ∧
    (st.motion_count = 0 →
      (handleMotionData m now cx cy W H ok st).1.avg_latency = st.avg_latency) ∧
    (statusTick st).1.avg_latency = st.avg_latency ∧
    (∀ (ip : String) (evs : List (String × Time)) (st0 : CtrlState),
      st0.motion_count = 0 → st0.avg_latency = 0 →
      (intervalRun ip cx cy W H ok evs st0).avg_latency = 0) := by
  refine ⟨?_, ?_, ?_, ?_, ?_, ?_⟩
  · simp [handleMotionData, h]
  · simp [handleMotionData, h]
  · intro hgt
    simp only [handleMotionData, h]
    rw [if_pos hgt]
    ring
  · intro hz
    simp only [handleMotionData, h]
    rw [if_neg (by omega)]
  · unfold statusTick
    split <;> rfl
  · exact fun ip evs st0 h0 hA => (intervalRun_zero ip cx cy W H ok evs st0 h0 hA).1

/-- Controller state with one motion sample already counted this interval. -/
def c10St : CtrlState :=
  { connected_clients := {"1.2.3.4"}
    sensitivity := 1
    smoothing_factor := 0
    smoothed_dx := 0
    smoothed_dy := 0
    last_motion_time := 3
    motion_count := 1
    avg_latency := 0 }

/-- Witness for C10: the first sample leaves the EMA alone, the second one
    applies it, and one packet per interval keeps it at zero. -/
theorem c10_witness :
    (handleMotionData "MOTION:10,0".toList 5 0 0 1920 1080 true (initState 0)).1.motion_count = 1 ∧
    (handleMotionData "MOTION:10,0".toList 5 0 0 1920 1080 true (initState 0)).1.avg_latency =
      (initState 0).avg_latency ∧
    (handleMotionData "MOTION:10,0".toList 5 0 0 1920 1080 true c10St).1.avg_latency =
      0.9 * c10St.avg_latency + 0.1 * (5 - c10St.last_motion_time) ∧
    (intervalRun "1.2.3.4" 0 0 1920 1080 true
      [("MOTION:10,0", 1), ("MOTION:10,0", 2)] (initState 0)).avg_latency = 0 := by
  have h1 := c10_latency_ema_gate "MOTION:10,0".toList 10 0 5 0 0 1920 1080 true
    (initState 0) motionFields_ten_zero
  have h2 := c10_latency_ema_gate "MOTION:10,0".toList 10 0 5 0 0 1920 1080 true
    c10St motionFields_ten_zero
  refine ⟨?_, h1.2.2.2.1 rfl, h2.2.2.1 (by simp [c10St]),
    h1.2.2.2.2.2 "1.2.3.4" [("MOTION:10,0", 1), ("MOTION:10,0", 2)] (initState 0) rfl
      (by norm_num [initState])⟩
  rw [h1.1]
  rfl

/-- C1 (corrected): a decodable packet whose payload classifies as a
    motion message but whose fields fail to parse logs the decode failure
    and leaves the filter state and metrics untouched; the Session
    Registry, however, has already registered the sender (first-contact
    registration happens before dispatch), so it equals the old set with
    the sender inserted — unchanged only when the sender was already
    registered. -/
theorem c1_malformed_motion (msg ip : String) (now : Time) (cx cy W H : ℤ)
    (ok : Bool) (st : CtrlState)
    (hpre : isPre "MOTION:".toList (pyStrip msg.toList) = true)
    (hbad : motionFieldsOf (pyStrip msg.toList) = none) :
    (processPacket msg ip now cx cy W H ok st).2 = [LogEvent.invalidMotion] ∧
    (processPacket msg ip now cx cy W H ok st).1 =
      { st with connected_clients := register ip st.connected_clients } := by
  unfold processPacket handleMotionData
  dsimp only
  rw [if_pos hpre, hbad]
  exact ⟨rfl, rfl⟩

/-- Counterexample to C1 as stated: the packet `MOTION:abc,1` from a fresh
    sender logs the decode failure but does mutate the Session Registry —
    the sender's IP is registered before dispatch. -/
theorem c1_counterexample :
    (processPacket "MOTION:abc,1" "1.2.3.4" 0 100 100 1920 1080 true (initState 0)).2 =
      [LogEvent.invalidMotion] ∧
    (processPacket "MOTION:abc,1" "1.2.3.4" 0 100 100 1920 1080 true
      (initState 0)).1.connected_clients ≠ (initState 0).connected_clients := by
  constructor
  · rfl
  · have hr : (processPacket "MOTION:abc,1" "1.2.3.4" 0 100 100 1920 1080 true
        (initState 0)).1.connected_clients = insert "1.2.3.4" (∅ : Finset String) := rfl
    rw [hr]
    simp [initState]

/-- Witness for C1 at the Scenario-4 payload from a different sender. -/
theorem c1_witness :
    isPre "MOTION:".toList (pyStrip "MOTION:abc,1".toList) = true ∧
    motionFieldsOf (pyStrip "MOTION:abc,1".toList) = none ∧
    (processPacket "MOTION:abc,1" "9.9.9.9" 3 4 5 800 600 false demoSt).2 =
      [LogEvent.invalidMotion] ∧
    (processPacket "MOTION:abc,1" "9.9.9.9" 3 4 5 800 600 false demoSt).1 =
      { demoSt with connected_clients := register "9.9.9.9" demoSt.connected_clients } := by
  have h := c1_malformed_motion "MOTION:abc,1" "9.9.9.9" 3 4 5 800 600 false demoSt rfl rfl
  exact ⟨rfl, rfl, h.1, h.2⟩

/-- C7: registration is an idempotent insert, unregistration an idempotent
    removal, and the CONNECT / DISCONNECT scenarios drive the registry
    size 0 → 1 → 0. -/
theorem c7_registry_ops (ip : String) (S : Finset String) :
    register ip S = S ∪ {ip} ∧
    unregister ip S = S \ {ip} ∧
    register ip (register ip S) = register ip S ∧
    unregister ip (unregister ip S) = unregister ip S ∧
    (processPacket "CONNECT:hello" "1.2.3.4" 0 0 0 1 1 true
      (initState 0)).1.connected_clients = {"1.2.3.4"} ∧
    ((processPacket "CONNECT:hello" "1.2.3.4" 0 0 0 1 1 true
      (initState 0)).1.connected_clients).card = 1 ∧
    ((processPacket "DISCONNECT:bye" "1.2.3.4" 0 0 0 1 1 true
      (processPacket "CONNECT:hello" "1.2.3.4" 0 0 0 1 1 true
        (initState 0)).1).1.connected_clients).card = 0 := by
  have hconn : (processPacket "CONNECT:hello" "1.2.3.4" 0 0 0 1 1 true
      (initState 0)).1.connected_clients = insert "1.2.3.4" (∅ : Finset String) := rfl
  have hsing : insert "1.2.3.4" (∅ : Finset String) = {"1.2.3.4"} := rfl
  refine ⟨?_, Finset.erase_eq S ip, Finset.insert_idem ip S, Finset.erase_idem, ?_, ?_, ?_⟩
  · rw [register, Finset.insert_eq, Finset.union_comm]
  · rw [hconn, hsing]
  · rw [hconn, hsing]
    exact Finset.card_singleton _
  · have hdis : ((processPacket "DISCONNECT:bye" "1.2.3.4" 0 0 0 1 1 true
        (processPacket "CONNECT:hello" "1.2.3.4" 0 0 0 1 1 true
          (initState 0)).1).1.connected_clients) =
        unregister "1.2.3.4" (register "1.2.3.4"
          (insert "1.2.3.4" (∅ : Finset String))) := rfl
    rw [hdis, register, unregister, Finset.insert_idem, hsing,
      Finset.erase_singleton, Finset.card_empty]
